import Mathlib

/-!
# Verification of the RampedPyrox model / L-curve core

Shallow embedding of `rampedpyrox/model/model.py` and
`rampedpyrox/timedata/timedata_helper.py`, together with proofs about the
behaviour of the embedded code.

Conventions of the embedding:
* Python machine floats are idealised as exact rationals (`ℚ`) where the code
  only performs field arithmetic, and as real numbers (`ℝ`) where the code
  takes logarithms, real powers or square roots.
* Fallible Python code is embedded as `Except PyErr _` (an uncaught exception
  is `Except.error`); `warnings.warn` is a non-fatal side channel and a
  successful call simply proceeds (`Except.ok`).
* Python dynamic typing is embedded by small tagged-value types (`PyVal`,
  `PyArg`, `DType`) covering the runtime types the functions branch on.
-/

/-- Python exceptions relevant to the embedded code. -/
inductive PyErr : Type
  | nameError (msg : String)
  | typeError (msg : String)
  | valueError (msg : String)
  deriving DecidableEq, Repr

/-- A dynamically typed Python scalar-ish value, as far as the embedded
`isinstance` checks can distinguish it: an `int`, a `float`, a 1-d numeric
array, a string, or anything else. -/
inductive PyVal : Type
  | vint (z : ℤ)
  | vfloat (q : ℚ)
  | varr (xs : List ℚ)
  | vstr (s : String)
  | vnone
  deriving DecidableEq, Repr

/-- `isinstance(v, (int, float))`. -/
def py_is_int_or_float : PyVal → Bool
  | .vint _ => true
  | .vfloat _ => true
  | _ => false

/-- `isinstance(v, int)`. -/
def py_is_int : PyVal → Bool
  | .vint _ => true
  | _ => false

/-!
## Names bound at module level of `rampedpyrox/model/model.py`

The module imports `matplotlib.pyplot as plt`, `numpy as np`, three names
from `core.core_functions` and two from `model.model_helper`, and defines the
classes `Model`, `LaplaceTransform` and `Daem`.  Crucially, the module never
imports `warnings`, and `warnings` is not a Python builtin, so every
`warnings.warn(...)` call inside this module raises `NameError` when reached.
-/

/-- The global names bound in `model.py` (its imports plus its top-level
class definitions), as they appear in the source file. -/
def model_module_scope : List String :=
  ["plt", "np", "assert_len", "derivatize", "round_to_sigfig",
   "_calc_f", "_rpo_calc_A", "Model", "LaplaceTransform", "Daem"]

/-- Whether the name `warnings` resolves inside `model.py` (it is neither a
module global nor a builtin). -/
def warnings_in_scope : Bool := model_module_scope.contains "warnings"

/-- Embedding of the leading `T`-check of `Daem.__init__` (model.py:419-432):
`if isinstance(T, (int, float)): warnings.warn(...)`.  Reaching the
`warnings.warn` call raises `NameError` when `warnings` is not in scope;
otherwise the warning is non-fatal and construction proceeds to build the
`A` matrix. -/
def daem_init_Tcheck (T : PyVal) : Except PyErr Unit :=
  if py_is_int_or_float T then
    if warnings_in_scope then .ok () else .error (.nameError "name warnings is not defined")
  else .ok ()

/-- Embedding of the type check of `Daem.from_timedata` (model.py:486-501):
`if not isinstance(timedata, (td.RpoThermogram)): warnings.warn(...)`.
The input is abstracted to the one bit the check branches on. -/
def from_timedata_check (isRpoThermogram : Bool) : Except PyErr Unit :=
  if !isRpoThermogram then
    if warnings_in_scope then .ok () else .error (.nameError "name warnings is not defined")
  else .ok ()

/-- Embedding of the type check of `Daem.from_ratedata` (model.py:564-579):
`if not isinstance(ratedata, (rd.EnergyComplex)): raise TypeError(...)`. -/
def from_ratedata_check (isEnergyComplex : Bool) : Except PyErr Unit :=
  if !isEnergyComplex then
    .error (.typeError "Only EnergyComplex instances can be used for Daem models")
  else .ok ()

/-!
## `Model.calc_L_curve` argument validation (model.py:139-145)

The method validates only the runtime *types* of its sweep parameters, in
order `om_max`, `om_min`, `nOm`; no positivity check is performed.
-/

/-- Embedding of the eager argument validation of `Model.calc_L_curve`:
returns the raised exception, or `none` when validation passes and the sweep
is entered. -/
def calc_L_curve_validate (om_max om_min nOm : PyVal) : Option PyErr :=
  if !py_is_int_or_float om_max then some (.typeError "om_max must be float or int")
  else if !py_is_int_or_float om_min then some (.typeError "om_min must be float or int")
  else if !py_is_int nOm then some (.typeError "nOm must be int")
  else none

/-!
## `_rpo_extract_tg` column validation (timedata_helper.py:165-179)

The source guard is `if 'CO2_scaled' and 'temp' not in file.columns:`.
Python parses this as `'CO2_scaled' and ('temp' not in file.columns)`; since
the nonempty string `'CO2_scaled'` is truthy, the Python `and` evaluates to
its right operand, so only membership of `'temp'` is ever tested.
-/

/-- Truthiness of the Python expression `s and b` for a string `s` and a
boolean `b`: `and` returns the left operand when it is falsy (the empty
string), and the right operand otherwise. -/
def py_and_str_bool (s : String) (b : Bool) : Bool :=
  if s.isEmpty then false else b

/-- Embedding of the guard condition
`'CO2_scaled' and 'temp' not in file.columns` over the column-name list. -/
def rpo_columns_check (cols : List String) : Bool :=
  py_and_str_bool "CO2_scaled" (!(cols.contains "temp"))

/-- Embedding of the validation prefix of `_rpo_extract_tg`: the input is a
`str` path (read into a DataFrame) or a DataFrame (else `TypeError`); then
the column guard above (raising `ValueError`); then the index must be a
`DatetimeIndex` (else `TypeError`). -/
def rpo_extract_tg_validate (isStr isDataFrame : Bool) (cols : List String)
    (indexIsDatetime : Bool) : Except PyErr Unit :=
  if !isStr ∧ !isDataFrame then
    .error (.typeError "file must be pd.DataFrame instance or path string")
  else if rpo_columns_check cols then
    .error (.valueError "file must have \"CO2_scaled\" and \"temp\" columns")
  else if !indexIsDatetime then
    .error (.typeError "file index must be pd.DatetimeIndex instance")
  else .ok ()

/-!
## Numpy primitives

`np.gradient` (unit spacing, second-order interior, one-sided edges),
`np.argmax` (first index attaining the maximum) and `np.linspace`
(`endpoint=True`), embedded generically so they can be used both over `ℚ`
(computable, for the timedata helpers) and over `ℝ` (for the L-curve
pipeline).
-/

/-- `np.gradient(xs)` for a 1-d array with unit spacing: one-sided
differences at the two edges, central differences in the interior.  Numpy
raises `ValueError` for fewer than two points; that case is the empty list
here and is re-raised by `np_gradient_exc` below where the source can see
the exception. -/
def np_gradient {α : Type} [Field α] (xs : List α) : List α :=
  if xs.length < 2 then []
  else
    (List.range xs.length).map (fun i =>
      if i = 0 then xs.getD 1 0 - xs.getD 0 0
      else if i = xs.length - 1 then
        xs.getD (xs.length - 1) 0 - xs.getD (xs.length - 2) 0
      else (xs.getD (i + 1) 0 - xs.getD (i - 1) 0) / 2)

/-- `np.gradient` with numpy's `ValueError` on arrays of fewer than two
elements made explicit. -/
def np_gradient_exc (xs : List ℚ) : Except PyErr (List ℚ) :=
  if xs.length < 2 then
    .error (.valueError "Shape of array too small to calculate a numerical gradient")
  else .ok (np_gradient xs)

/-- `np.argmax(xs)`: the index of the first occurrence of the maximum value.
Defined by recursion: the head wins ties against the best of the tail. -/
def np_argmax {α : Type} [LinearOrder α] : List α → ℕ
  | [] => 0
  | [_] => 0
  | x :: y :: rest =>
    let i := np_argmax (y :: rest)
    if x < (y :: rest).getD i y then i + 1 else 0

/-- `np.linspace(s, e, num)` with `endpoint=True`: `num` samples
`s + i*(e-s)/(num-1)`; a single sample degenerates to `[s]`. -/
def np_linspace {α : Type} [Field α] (s e : α) (num : ℕ) : List α :=
  (List.range num).map (fun i : ℕ =>
    if num ≤ 1 then s else s + (i : α) * ((e - s) / ((num : α) - 1)))

/-- The default of a `List.getD` lookup is irrelevant in bounds. -/
theorem list_getD_irrel {α : Type} :
    (xs : List α) → (i : ℕ) → i < xs.length → ∀ d d', xs.getD i d = xs.getD i d'
  | _ :: _, 0, _, _, _ => rfl
  | _ :: rest, i + 1, h, d, d' => list_getD_irrel rest i (by simpa using h) d d'
  | [], _, h, _, _ => absurd h (by simp)

/-- `getD` through `zipWith`, with arbitrary defaults, in bounds. -/
theorem list_getD_zipWith {α β γ : Type} (f : α → β → γ) :
    (a : List α) → (b : List β) → (i : ℕ) → i < a.length → i < b.length →
      ∀ da db dc, (List.zipWith f a b).getD i dc = f (a.getD i da) (b.getD i db)
  | _ :: _, _ :: _, 0, _, _, _, _, _ => rfl
  | x :: as, y :: bs, i + 1, ha, hb, da, db, dc =>
    list_getD_zipWith f as bs i (by simpa using ha) (by simpa using hb) da db dc
  | [], _, _, ha, _, _, _, _ => absurd ha (by simp)
  | _ :: _, [], _, _, hb, _, _, _ => absurd hb (by simp)

/-- `np_argmax` returns an index of a nonempty array. -/
theorem np_argmax_lt_length {α : Type} [LinearOrder α] :
    (xs : List α) → xs ≠ [] → np_argmax xs < xs.length
  | [], h => absurd rfl h
  | [_], _ => by simp [np_argmax]
  | x :: y :: rest, _ => by
    have ih := np_argmax_lt_length (y :: rest) (by simp)
    simp only [np_argmax]
    split
    · simpa using Nat.succ_lt_succ ih
    · simp

/-- Every element of the array is at most the element `np_argmax` points at. -/
theorem np_argmax_is_max {α : Type} [LinearOrder α] (d : α) :
    (xs : List α) → ∀ j, j < xs.length →
      xs.getD j d ≤ xs.getD (np_argmax xs) d
  | [], _, hj => absurd hj (by simp)
  | [x], j, hj => by
    have hj0 : j = 0 := by simp at hj; omega
    subst hj0
    simp [np_argmax]
  | x :: y :: rest, j, hj => by
    have hlt := np_argmax_lt_length (y :: rest) (by simp)
    have ih := np_argmax_is_max d (y :: rest)
    simp only [np_argmax]
    split
    · rename_i hcase
      rw [list_getD_irrel (y :: rest) _ hlt y d] at hcase
      match j, hj with
      | 0, _ => exact le_of_lt (by simpa using hcase)
      | j + 1, hj => simpa using ih j (by simpa using hj)
    · rename_i hcase
      rw [list_getD_irrel (y :: rest) _ hlt y d] at hcase
      push_neg at hcase
      match j, hj with
      | 0, _ => simp
      | j + 1, hj =>
        have := le_trans (ih j (by simpa using hj)) hcase
        simpa using this

/-- `np_argmax` picks the first index attaining the maximum: every strictly
earlier element is strictly smaller. -/
theorem np_argmax_first {α : Type} [LinearOrder α] (d : α) :
    (xs : List α) → ∀ j, j < np_argmax xs →
      xs.getD j d < xs.getD (np_argmax xs) d
  | [], j, hj => absurd hj (by simp [np_argmax])
  | [_], j, hj => absurd hj (by simp [np_argmax])
  | x :: y :: rest, j, hj => by
    have hlt := np_argmax_lt_length (y :: rest) (by simp)
    have ih := np_argmax_first d (y :: rest)
    simp only [np_argmax] at hj ⊢
    split
    · rename_i hcase
      rw [list_getD_irrel (y :: rest) _ hlt y d] at hcase
      split at hj
      · match j, hj with
        | 0, _ => simpa using hcase
        | j + 1, hj => simpa using ih j (by omega)
      · omega
    · rename_i hcase
      split at hj
      · rename_i hx
        exact absurd hx hcase
      · omega

/-- `np_gradient` preserves length on arrays of at least two elements. -/
theorem np_gradient_length {α : Type} [Field α] (xs : List α)
    (h : 2 ≤ xs.length) : (np_gradient xs).length = xs.length := by
  simp [np_gradient, Nat.not_lt.mpr h]

/-- `np_linspace` always returns exactly `num` samples. -/
theorem np_linspace_length {α : Type} [Field α] (s e : α) (num : ℕ) :
    (np_linspace s e num).length = num := by
  unfold np_linspace
  rw [List.length_map, List.length_range]

/-- In-bounds elements of `np_linspace` for at least two samples. -/
theorem np_linspace_getD {α : Type} [Field α] (s e : α) (num : ℕ)
    (h2 : 2 ≤ num) (i : ℕ) (hi : i < num) (d : α) :
    (np_linspace s e num).getD i d = s + (i : α) * ((e - s) / ((num : α) - 1)) := by
  have hlen : i < (np_linspace s e num).length := by
    rw [np_linspace_length]; exact hi
  rw [List.getD_eq_getElem _ _ hlen]
  simp only [np_linspace, List.getElem_map, List.getElem_range]
  rw [if_neg (by omega : ¬ num ≤ 1)]

/-!
## Claim theorems: constructor warnings and eager validation
-/

/-- C1: contrary to the claim (and to the docstring of `Daem`), a scalar
(`int` or `float`) temperature `T` does not produce a non-fatal advisory
warning: the `warnings.warn` call in `Daem.__init__` raises `NameError`
because `model.py` never imports `warnings`, so construction is blocked for
every scalar `T` (and proceeds untouched for non-scalar `T`). -/
theorem daem_scalar_T_raises_NameError (T : PyVal) :
    daem_init_Tcheck T =
      (if py_is_int_or_float T then
        Except.error (PyErr.nameError "name warnings is not defined")
      else Except.ok ()) := by
  cases T <;> rfl

/-- C2 counterexample: `calc_L_curve(nOm = 0, om_min = -1, om_max = 100.0)`
passes the eager argument validation without any error — non-positive sweep
count and non-positive omega bound are not rejected, refuting the claim that
an `InvalidArgument`-style error is raised eagerly for such inputs. -/
theorem calc_L_curve_nonpositive_args_pass_validation :
    calc_L_curve_validate (.vfloat 100) (.vint (-1)) (.vint 0) = none := by
  rfl

/-- C2 amended: the eager validation of `calc_L_curve` checks only the
runtime types of the sweep parameters — it passes exactly when `om_max` and
`om_min` are `int` or `float` and `nOm` is `int`, raising `TypeError`
otherwise; the signs and magnitudes of the values are never examined. -/
theorem calc_L_curve_validation_is_type_check_only
    (om_max om_min nOm : PyVal) :
    calc_L_curve_validate om_max om_min nOm = none ↔
      (py_is_int_or_float om_max = true ∧ py_is_int_or_float om_min = true ∧
        py_is_int nOm = true) := by
  unfold calc_L_curve_validate
  cases om_max <;> cases om_min <;> cases nOm <;> simp [py_is_int_or_float, py_is_int]

/-- C5 counterexample: passing a ratedata instance that is not an
`EnergyComplex` to `Daem.from_ratedata` does not produce a mere advisory
warning — the constructor raises `TypeError`, blocking execution. -/
theorem from_ratedata_mismatch_raises_TypeError :
    from_ratedata_check false =
      Except.error (PyErr.typeError "Only EnergyComplex instances can be used for Daem models") := by
  rfl

/-- C5 amended: a class-mismatched companion object blocks execution in both
alternate constructors. `Daem.from_timedata` reaches an advisory
`warnings.warn` call for a non-`RpoThermogram` timedata, but since `model.py`
does not import `warnings` that call itself raises `NameError`;
`Daem.from_ratedata` raises `TypeError` for a non-`EnergyComplex` ratedata by
design. Correctly typed companions proceed normally in both. -/
theorem daem_alternate_constructor_mismatch_blocks :
    from_timedata_check false =
        Except.error (PyErr.nameError "name warnings is not defined") ∧
      from_ratedata_check false =
        Except.error (PyErr.typeError "Only EnergyComplex instances can be used for Daem models") ∧
      from_timedata_check true = Except.ok () ∧
      from_ratedata_check true = Except.ok () := by
  exact ⟨rfl, rfl, rfl, rfl⟩

/-- C9: the column validation of `_rpo_extract_tg` tests only membership of
`"temp"` — the Python condition `'CO2_scaled' and 'temp' not in file.columns`
reduces to `'temp' not in file.columns` because the literal `'CO2_scaled'` is
truthy. Hence a DataFrame with a `DatetimeIndex` whose columns contain
`"temp"` passes validation whether or not `"CO2_scaled"` is present. -/
theorem rpo_extract_tg_checks_only_temp (cols : List String) :
    rpo_columns_check cols = !(cols.contains "temp") ∧
      rpo_extract_tg_validate false true cols true =
        (if cols.contains "temp" then Except.ok ()
         else Except.error
           (PyErr.valueError "file must have \"CO2_scaled\" and \"temp\" columns")) := by
  constructor
  · rfl
  · unfold rpo_extract_tg_validate rpo_columns_check py_and_str_bool
    cases h : cols.contains "temp"
    · simp [h]
      rfl
    · simp [h]

/-!
## `Model.__init__` and `assert_len` (model.py:26-57)

`Model.__init__` normalises `t`, `T` and `A` through `assert_len`.
`assert_len` lives in `core/core_functions.py`, which is not part of the
sources here; it is mirrored by `_assert_lent` in
`timedata/timedata_helper.py` (the in-repository twin cited by the claim),
whose behaviour the embedding follows: a scalar is broadcast to
`value * np.ones(nt)`, an array-like must have leading length `nt` or
`ValueError` is raised, anything else raises `TypeError`.
-/

/-- A value passed through `assert_len`: a numeric scalar, a 1-d array, or a
2-d array (whose Python `len` is its row count). -/
inductive PyArg : Type
  | scalar (q : ℚ)
  | arr (xs : List ℚ)
  | mat (rows : List (List ℚ))
  deriving DecidableEq, Repr

/-- Python `len` of an `assert_len`-accepted array-like (rows for 2-d). -/
def pyArgLen : PyArg → ℕ
  | .scalar _ => 0
  | .arr xs => xs.length
  | .mat rows => rows.length

/-- Embedding of `assert_len(array, nt)` following `_assert_lent`
(timedata_helper.py:41-57): broadcast scalars, length-check array-likes. -/
def assert_len (array : PyArg) (nt : ℕ) : Except PyErr PyArg :=
  match array with
  | .scalar q => .ok (.arr (List.replicate nt q))
  | .arr xs =>
    if xs.length = nt then .ok (.arr xs)
    else .error (.valueError "array must have length nt")
  | .mat rows =>
    if rows.length = nt then .ok (.mat rows)
    else .error (.valueError "array must have length nt")

/-- The attributes stored by a successfully constructed `Model`. -/
structure ModelState : Type where
  A : List (List ℚ)
  model_type : String
  nt : ℕ
  t : List ℚ
  T : PyArg
  deriving DecidableEq, Repr

/-- Embedding of `Model.__init__(A, model_type, t, T)` (model.py:26-57):
`nt = len(t)`, then `t`, `T`, `A` are passed through `assert_len` in that
order (the first failure propagates), and the results are stored. -/
def Model_init (A : List (List ℚ)) (model_type : String) (t : List ℚ)
    (T : PyArg) : Except PyErr ModelState :=
  match assert_len (.arr t) t.length with
  | .error e => .error e
  | .ok _ =>
    match assert_len T t.length with
    | .error e => .error e
    | .ok Tv =>
      match assert_len (.mat A) t.length with
      | .error e => .error e
      | .ok _ =>
        .ok { A := A, model_type := model_type, nt := t.length, t := t, T := Tv }

/-- `assert_len` only succeeds with a result of Python length `nt`. -/
theorem assert_len_ok_length (T Tv : PyArg) (n : ℕ)
    (h : assert_len T n = .ok Tv) : pyArgLen Tv = n := by
  cases T with
  | scalar q =>
    simp only [assert_len, Except.ok.injEq] at h
    subst h
    simp [pyArgLen]
  | arr xs =>
    by_cases hx : xs.length = n
    · simp only [assert_len, if_pos hx, Except.ok.injEq] at h
      subst h
      simpa [pyArgLen] using hx
    · simp [assert_len, hx] at h
  | mat rows =>
    by_cases hx : rows.length = n
    · simp only [assert_len, if_pos hx, Except.ok.injEq] at h
      subst h
      simpa [pyArgLen] using hx
    · simp [assert_len, hx] at h

/-- C8: constructing a `Model` with an array-like `T` whose length differs
from `len(t)`, or with an `A` whose row count differs from `len(t)`, fails
with the dimension-mismatch `ValueError` of `assert_len`; on success the
stored attributes satisfy `len(t) = len(T) = nt` with `A` having `nt` rows,
and a scalar `T` is broadcast to a length-`nt` array. -/
theorem Model_init_dimension_check (A : List (List ℚ)) (mt : String)
    (t : List ℚ) (T : PyArg) :
    (∀ Ts, T = PyArg.arr Ts → Ts.length ≠ t.length →
      Model_init A mt t T = .error (.valueError "array must have length nt")) ∧
    (∀ q, T = PyArg.scalar q → A.length ≠ t.length →
      Model_init A mt t T = .error (.valueError "array must have length nt")) ∧
    (∀ Ts, T = PyArg.arr Ts → Ts.length = t.length → A.length ≠ t.length →
      Model_init A mt t T = .error (.valueError "array must have length nt")) ∧
    (∀ st, Model_init A mt t T = .ok st →
      st.nt = t.length ∧ st.t = t ∧ st.A = A ∧ st.A.length = t.length ∧
        pyArgLen st.T = t.length ∧ st.model_type = mt ∧
        (∀ q, T = PyArg.scalar q → st.T = PyArg.arr (List.replicate t.length q))) := by
  refine ⟨?_, ?_, ?_, ?_⟩
  · intro Ts hT hlen
    subst hT
    simp [Model_init, assert_len, hlen]
  · intro q hT hlen
    subst hT
    simp [Model_init, assert_len, hlen]
  · intro Ts hT hlen hA
    subst hT
    simp [Model_init, assert_len, hlen, hA]
  · intro st hok
    unfold Model_init at hok
    split at hok
    · simp at hok
    · split at hok
      · simp at hok
      · rename_i Tv heqT
        split at hok
        · simp at hok
        · rename_i Aok heqA
          simp only [Except.ok.injEq] at hok
          subst hok
          have hA : A.length = t.length := by
            by_contra hA
            simp [assert_len, hA] at heqA
          refine ⟨rfl, rfl, rfl, hA, assert_len_ok_length T Tv t.length heqT, rfl, ?_⟩
          intro q hq
          subst hq
          simp only [assert_len, Except.ok.injEq] at heqT
          exact heqT.symm

/-- Witness for C8 at concrete inputs: `t = [1, 2]` with a length-1 array
`T` is rejected with the dimension-mismatch error, and with a scalar
`T = 5` and a 2-row `A` construction succeeds, broadcasting `T` to
`[5, 5]`. -/
theorem Model_init_dimension_check_witness :
    Model_init [[1], [2]] "Daem" [1, 2] (PyArg.arr [3]) =
        .error (.valueError "array must have length nt") ∧
      (∀ st, Model_init [[1], [2]] "Daem" [1, 2] (PyArg.scalar 5) = .ok st →
        st.T = PyArg.arr (List.replicate 2 5)) := by
  constructor
  · exact (Model_init_dimension_check [[1], [2]] "Daem" [1, 2] (PyArg.arr [3])).1
      [3] rfl (by decide)
  · intro st hok
    have h := (Model_init_dimension_check [[1], [2]] "Daem" [1, 2]
      (PyArg.scalar 5)).2.2.2 st hok
    exact (h.2.2.2.2.2.2 5 rfl).trans (by norm_num)

/-!
## `_derivatize` (timedata_helper.py:60-114)

`dn = np.gradient(num)` is wrapped in `try/except ValueError` (a scalar
`num`, or one with fewer than two points, falls back to
`np.zeros(len(denom))`); `dd = np.gradient(denom)` is not wrapped.  The
zero-guard is the Python expression `any(dd) <= 0`: `any(dd)` is a `bool`,
which compares to `0` as an integer, so the guard holds iff `any(dd)` is
`False`, i.e. iff every element of `dd` equals zero.  Division entries with
`dd[i] = 0` (only possible when the guard did not fire) are numpy `inf/nan`;
the exact embedding assigns them `ℚ`-division-by-zero, which no claim here
touches.
-/

/-- An argument of `_derivatize`: a numeric scalar or a 1-d array. -/
inductive DType : Type
  | dscalar (q : ℚ)
  | darr (xs : List ℚ)
  deriving DecidableEq, Repr

/-- Python `any` over a numeric array: true iff some element is nonzero. -/
def pyAny (xs : List ℚ) : Bool := xs.any (fun x => x != 0)

/-- A Python `bool` used in arithmetic comparison: `True` is 1, `False` 0. -/
def pyBoolToInt (b : Bool) : ℤ := if b then 1 else 0

/-- The zero-guard of `_derivatize`, literally `any(dd) <= 0`. -/
def derivGuard (dd : List ℚ) : Bool := decide (pyBoolToInt (pyAny dd) ≤ 0)

/-- Embedding of `_derivatize(num, denom)` for scalar/1-d inputs (other
input types raise `TypeError` in the source's leading `isinstance` checks
and are outside the claims considered here). -/
def timedata_derivatize (num denom : DType) : Except PyErr (List ℚ) :=
  match denom with
  | .dscalar _ => .error (.typeError "denom bust be array-like")
  | .darr d =>
    let dn : List ℚ :=
      match num with
      | .dscalar _ => List.replicate d.length 0
      | .darr nxs =>
        match np_gradient_exc nxs with
        | .ok g => g
        | .error _ => List.replicate d.length 0
    match np_gradient_exc d with
    | .error e => .error e
    | .ok dd =>
      if dn.length ≠ dd.length then
        .error (.valueError "num and denom arrays must have same length")
      else if derivGuard dd then .ok (List.replicate d.length 0)
      else .ok (List.zipWith (· / ·) dn dd)

/-- The guard `any(dd) <= 0` is equivalent to `not any(dd)`: it holds iff
every element of `dd` is zero. -/
theorem derivGuard_iff_all_zero (dd : List ℚ) :
    derivGuard dd = true ↔ ∀ x ∈ dd, x = 0 := by
  unfold derivGuard pyBoolToInt pyAny
  cases h : dd.any (fun x => x != 0) with
  | false =>
    norm_num
    intro x hx
    by_contra hxne
    have hany : dd.any (fun x => x != 0) = true :=
      List.any_eq_true.mpr ⟨x, hx, by simpa using hxne⟩
    rw [h] at hany
    exact absurd hany (by simp)
  | true =>
    norm_num
    obtain ⟨x, hx, hne⟩ := List.any_eq_true.mp h
    exact ⟨x, hx, by simpa using hne⟩

/-- Element 0 of `np_gradient`. -/
theorem np_gradient_getD_zero {α : Type} [Field α] (xs : List α)
    (h2 : 2 ≤ xs.length) :
    (np_gradient xs).getD 0 0 = xs.getD 1 0 - xs.getD 0 0 := by
  have hlen : 0 < (np_gradient xs).length := by
    rw [np_gradient_length xs h2]; omega
  rw [List.getD_eq_getElem _ _ hlen]
  simp only [np_gradient, if_neg (Nat.not_lt.mpr h2), List.getElem_map,
    List.getElem_range]
  rfl

/-- C10: `_derivatize` takes the zero-returning branch only when every
element of the discrete gradient of `denom` is zero (the guard
`any(dd) <= 0` is `not any(dd)`); in particular, for a strictly decreasing
`denom` of the same length as `num` it returns
`np.gradient(num)/np.gradient(denom)` rather than the zeros its docstring
promises for a non-increasing denominator. -/
theorem derivatize_zero_guard (num d : List ℚ)
    (hlen : num.length = d.length) (hd2 : 2 ≤ d.length) :
    (∀ dd : List ℚ, derivGuard dd = true ↔ ∀ x ∈ dd, x = 0) ∧
    ((∀ x ∈ np_gradient d, x = 0) →
      timedata_derivatize (.darr num) (.darr d) =
        .ok (List.replicate d.length 0)) ∧
    (List.Chain' (fun a b => b < a) d →
      timedata_derivatize (.darr num) (.darr d) =
        .ok (List.zipWith (· / ·) (np_gradient num) (np_gradient d))) := by
  have hn2 : 2 ≤ num.length := hlen ▸ hd2
  have hnum_ok : np_gradient_exc num = .ok (np_gradient num) := by
    simp [np_gradient_exc, Nat.not_lt.mpr hn2]
  have hd_ok : np_gradient_exc d = .ok (np_gradient d) := by
    simp [np_gradient_exc, Nat.not_lt.mpr hd2]
  have hlens : (np_gradient num).length = (np_gradient d).length := by
    rw [np_gradient_length num hn2, np_gradient_length d hd2, hlen]
  refine ⟨derivGuard_iff_all_zero, ?_, ?_⟩
  · intro hall
    have hguard : derivGuard (np_gradient d) = true :=
      (derivGuard_iff_all_zero _).mpr hall
    simp [timedata_derivatize, hnum_ok, hd_ok, hlens, hguard]
  · intro hdec
    have hne : (np_gradient d).getD 0 0 ≠ 0 := by
      rw [np_gradient_getD_zero d hd2]
      match d, hd2 with
      | a :: b :: rest, _ =>
        have hba : b < a := (List.chain'_cons.mp hdec).1
        simp only [List.getD_cons_succ, List.getD_cons_zero]
        intro habs
        have : b = a := by linarith [sub_eq_zero.mp habs]
        exact absurd this (ne_of_lt hba)
    have hguard : derivGuard (np_gradient d) = false := by
      by_contra h
      rw [Bool.not_eq_false] at h
      have hall := (derivGuard_iff_all_zero _).mp h
      have hmem : (np_gradient d).getD 0 0 ∈ np_gradient d := by
        have h0 : 0 < (np_gradient d).length := by
          rw [np_gradient_length d hd2]; omega
        rw [List.getD_eq_getElem _ _ h0]
        exact List.getElem_mem h0
      exact hne (hall _ hmem)
    simp [timedata_derivatize, hnum_ok, hd_ok, hlens, hguard]

/-- Witness for C10 at a concrete strictly decreasing denominator:
`_derivatize([1, 2], [5, 3])` returns the elementwise gradient quotient
`[-1/2, -1/2]`, not zeros. -/
theorem derivatize_zero_guard_witness :
    timedata_derivatize (.darr [1, 2]) (.darr [5, 3]) =
      .ok (List.zipWith (· / ·) (np_gradient [1, 2]) (np_gradient [5, 3])) := by
  refine (derivatize_zero_guard [1, 2] [5, 3] rfl (by norm_num)).2.2 ?_
  rw [List.chain'_cons]
  refine ⟨by norm_num, by simp⟩

/-!
## The L-curve pipeline of `Model.calc_L_curve` (model.py:147-174)

The sweep vector, the inversion loop, the log/round/derivative/curvature
post-processing and the corner selection.  Two helpers imported from
`core/core_functions.py` are not part of the sources here and are modelled
from the spec: `round_to_sigfig` (round to a number of significant figures)
and `derivatize` (discrete gradient of one sequence with respect to
another).  The regularized inverter `_calc_f` (from `model/model_helper.py`,
also absent) is a parameter of the sweep.
-/

/-- Modelled from the spec: `round_to_sigfig` of `core/core_functions.py`
(absent from the sources) rounds a value to `n` significant figures — the
mantissa `x / 10^(e-n+1)`, with `e` the decimal exponent of `x`, is rounded
to the nearest integer and scaled back. -/
noncomputable def sigfigRound (n : ℕ) (x : ℝ) : ℝ :=
  if x = 0 then 0
  else
    (round (x * (10:ℝ) ^ ((n:ℤ) - 1 - ⌊Real.logb 10 |x|⌋)) : ℤ) *
      (10:ℝ) ^ (⌊Real.logb 10 |x|⌋ - ((n:ℤ) - 1))

/-- Modelled from the spec: elementwise significant-figure rounding of an
array, `round_to_sigfig(vec, sig_figs)`. -/
noncomputable def round_to_sigfig (xs : List ℝ) (n : ℕ) : List ℝ :=
  xs.map (sigfigRound n)

/-- Modelled from the spec: `derivatize(num, denom)` of
`core/core_functions.py` (absent from the sources) — the discrete gradient
of `num` with respect to `denom`, `np.gradient(num)/np.gradient(denom)`
elementwise. -/
noncomputable def derivatize (num denom : List ℝ) : List ℝ :=
  List.zipWith (· / ·) (np_gradient num) (np_gradient denom)

/-- The candidate-omega vector of `calc_L_curve`:
`om_vec = 10**np.linspace(np.log10(om_min), np.log10(om_max), nOm)`. -/
noncomputable def lCurve_om_vec (nOm : ℕ) (om_min om_max : ℝ) : List ℝ :=
  (np_linspace (Real.logb 10 om_min) (Real.logb 10 om_max) nOm).map
    (fun x => (10:ℝ) ^ x)

/-- Default sweep size (`nOm = 150` in the signature of `calc_L_curve`). -/
def calc_L_curve_default_nOm : ℕ := 150

/-- Default upper omega bound (`om_max = 1e2`). -/
noncomputable def calc_L_curve_default_om_max : ℝ := 1e2

/-- Default lower omega bound (`om_min = 1e-3`). -/
noncomputable def calc_L_curve_default_om_min : ℝ := 1e-3

/-- A logged-and-rounded norm sequence of the L-curve:
`round_to_sigfig(np.log10(vec), 6)`. -/
noncomputable def lCurve_logvec (v : List ℝ) : List ℝ :=
  round_to_sigfig (v.map (Real.logb 10)) 6

/-- `dydx = derivatize(rgh_vec, res_vec)` over the rounded logged norms. -/
noncomputable def lCurve_dydx (res rgh : List ℝ) : List ℝ :=
  derivatize (lCurve_logvec rgh) (lCurve_logvec res)

/-- `dy2d2x = derivatize(dydx, res_vec)`. -/
noncomputable def lCurve_d2 (res rgh : List ℝ) : List ℝ :=
  derivatize (lCurve_dydx res rgh) (lCurve_logvec res)

/-- The curvature array `k = np.abs(dy2d2x)/(1+dydx**2)**1.5`. -/
noncomputable def lCurve_k (res rgh : List ℝ) : List ℝ :=
  List.zipWith (fun d2 d1 => |d2| / (1 + d1 ^ 2) ^ (1.5:ℝ))
    (lCurve_d2 res rgh) (lCurve_dydx res rgh)

/-- The post-sweep tail of `calc_L_curve` (model.py:159-174): log, round,
differentiate, curvature, then `om_best = om_vec[np.argmax(k)]`. -/
noncomputable def calc_L_curve_tail (res rgh om_vec : List ℝ) : ℝ :=
  om_vec.getD (np_argmax (lCurve_k res rgh)) 0

/-- The inversion sweep `for i, w in enumerate(om_vec): _, res, rgh =
_calc_f(self, timedata, w)` (model.py:151-157), parametrized by the
regularized inverter `_calc_f` (from the absent `model_helper.py`), which
returns the `(residual, roughness)` pair or raises.  No exception is caught:
the first error aborts the whole sweep. -/
def lCurve_sweep {ε : Type} (calcf : ℝ → Except ε (ℝ × ℝ)) :
    List ℝ → Except ε (List ℝ × List ℝ)
  | [] => .ok ([], [])
  | w :: rest =>
    match calcf w with
    | .error e => .error e
    | .ok p =>
      match lCurve_sweep calcf rest with
      | .error e => .error e
      | .ok (rs, gs) => .ok (p.1 :: rs, p.2 :: gs)

/-- The whole of `calc_L_curve` after argument validation (plotting
omitted): build the sweep vector, run the inversions, post-process, return
the best omega. -/
noncomputable def calc_L_curve_run {ε : Type} (calcf : ℝ → Except ε (ℝ × ℝ))
    (nOm : ℕ) (om_min om_max : ℝ) : Except ε ℝ :=
  match lCurve_sweep calcf (lCurve_om_vec nOm om_min om_max) with
  | .error e => .error e
  | .ok (res_vec, rgh_vec) =>
    .ok (calc_L_curve_tail res_vec rgh_vec (lCurve_om_vec nOm om_min om_max))

/-- The sweep vector has exactly `nOm` entries. -/
theorem lCurve_om_vec_length (nOm : ℕ) (a b : ℝ) :
    (lCurve_om_vec nOm a b).length = nOm := by
  unfold lCurve_om_vec
  rw [List.length_map, np_linspace_length]

/-- In-bounds entries of the sweep vector, for `nOm ≥ 2`. -/
theorem lCurve_om_vec_getD (nOm : ℕ) (a b : ℝ) (h2 : 2 ≤ nOm) (i : ℕ)
    (hi : i < nOm) :
    (lCurve_om_vec nOm a b).getD i 0 =
      (10:ℝ) ^ (Real.logb 10 a +
        (i:ℝ) * ((Real.logb 10 b - Real.logb 10 a) / ((nOm:ℝ) - 1))) := by
  have hlen : i < (lCurve_om_vec nOm a b).length := by
    rw [lCurve_om_vec_length]; exact hi
  rw [List.getD_eq_getElem _ _ hlen]
  unfold lCurve_om_vec
  rw [List.getElem_map]
  congr 1
  have hl : i < (np_linspace (Real.logb 10 a) (Real.logb 10 b) nOm).length := by
    rw [np_linspace_length]; exact hi
  rw [show (np_linspace (Real.logb 10 a) (Real.logb 10 b) nOm)[i] =
      (np_linspace (Real.logb 10 a) (Real.logb 10 b) nOm).getD i 0 from
    (List.getD_eq_getElem _ _ hl).symm]
  exact np_linspace_getD _ _ nOm h2 i hi 0

/-- C6: for valid positive arguments the candidate omegas of `calc_L_curve`
are exactly `nOm` values, the `i`-th being 10 raised to the `i`-th of `nOm`
equally spaced exponents running from `log10(om_min)` to `log10(om_max)`;
the sweep therefore starts at `om_min` and ends at `om_max` inclusive, and
the declared defaults are `nOm = 150`, `om_min = 1e-3 = 1/1000`,
`om_max = 1e2 = 100`. -/
theorem calc_L_curve_sweep_grid (nOm : ℕ) (om_min om_max : ℝ)
    (hmin : 0 < om_min) (hmax : 0 < om_max) (h2 : 2 ≤ nOm) :
    (lCurve_om_vec nOm om_min om_max).length = nOm ∧
    (∀ i, i < nOm → (lCurve_om_vec nOm om_min om_max).getD i 0 =
      (10:ℝ) ^ (Real.logb 10 om_min +
        (i:ℝ) * ((Real.logb 10 om_max - Real.logb 10 om_min) / ((nOm:ℝ) - 1)))) ∧
    (lCurve_om_vec nOm om_min om_max).getD 0 0 = om_min ∧
    (lCurve_om_vec nOm om_min om_max).getD (nOm - 1) 0 = om_max ∧
    calc_L_curve_default_nOm = 150 ∧
    calc_L_curve_default_om_min = 1 / 1000 ∧
    calc_L_curve_default_om_max = 100 := by
  have hcast : (2:ℝ) ≤ (nOm:ℝ) := by exact_mod_cast h2
  have hne : ((nOm:ℝ) - 1) ≠ 0 := by intro h; linarith
  refine ⟨lCurve_om_vec_length nOm om_min om_max, ?_, ?_, ?_, rfl, ?_, ?_⟩
  · intro i hi
    exact lCurve_om_vec_getD nOm om_min om_max h2 i hi
  · rw [lCurve_om_vec_getD nOm om_min om_max h2 0 (by omega)]
    simp only [Nat.cast_zero, zero_mul, add_zero]
    exact Real.rpow_logb (by norm_num) (by norm_num) hmin
  · rw [lCurve_om_vec_getD nOm om_min om_max h2 (nOm - 1) (by omega)]
    have hc : ((nOm - 1 : ℕ) : ℝ) = (nOm:ℝ) - 1 := by
      push_cast [Nat.cast_sub (by omega : 1 ≤ nOm)]
      ring
    rw [hc]
    have hexp : Real.logb 10 om_min + ((nOm:ℝ) - 1) *
        ((Real.logb 10 om_max - Real.logb 10 om_min) / ((nOm:ℝ) - 1)) =
        Real.logb 10 om_max := by
      field_simp
    rw [hexp]
    exact Real.rpow_logb (by norm_num) (by norm_num) hmax
  · unfold calc_L_curve_default_om_min
    norm_num
  · unfold calc_L_curve_default_om_max
    norm_num

/-- Witness for C6 at `nOm = 2`, `om_min = 1`, `om_max = 10`: the sweep has
two entries running from `om_min` to `om_max`. -/
theorem calc_L_curve_sweep_grid_witness :
    (lCurve_om_vec 2 1 10).length = 2 ∧
      (lCurve_om_vec 2 1 10).getD 0 0 = 1 ∧
      (lCurve_om_vec 2 1 10).getD (2 - 1) 0 = 10 := by
  have h := calc_L_curve_sweep_grid 2 1 10 (by norm_num) (by norm_num)
    (by norm_num)
  exact ⟨h.1, h.2.2.1, h.2.2.2.1⟩

/-- Rounding to `n` significant figures perturbs a value by at most half a
unit in the `n`-th significant decimal place. -/
theorem sigfigRound_precision (n : ℕ) (x : ℝ) :
    |sigfigRound n x - x| ≤
      (1 / 2) * (10:ℝ) ^ (⌊Real.logb 10 |x|⌋ - ((n:ℤ) - 1)) := by
  by_cases hx : x = 0
  · subst hx
    have hzero : sigfigRound n 0 = 0 := by
      unfold sigfigRound
      rw [if_pos rfl]
    rw [hzero, sub_zero, abs_zero]
    positivity
  · have hu : (0:ℝ) < (10:ℝ) ^ (⌊Real.logb 10 |x|⌋ - ((n:ℤ) - 1)) :=
      zpow_pos (by norm_num) _
    have htu : (10:ℝ) ^ (((n:ℤ) - 1) - ⌊Real.logb 10 |x|⌋) *
        (10:ℝ) ^ (⌊Real.logb 10 |x|⌋ - ((n:ℤ) - 1)) = 1 := by
      rw [← zpow_add₀ (by norm_num : (10:ℝ) ≠ 0)]
      norm_num
    have key : sigfigRound n x - x =
        ((round (x * (10:ℝ) ^ (((n:ℤ) - 1) - ⌊Real.logb 10 |x|⌋)) : ℝ) -
          x * (10:ℝ) ^ (((n:ℤ) - 1) - ⌊Real.logb 10 |x|⌋)) *
        (10:ℝ) ^ (⌊Real.logb 10 |x|⌋ - ((n:ℤ) - 1)) := by
      rw [sub_mul]
      unfold sigfigRound
      rw [if_neg hx]
      congr 1
      rw [mul_assoc, htu, mul_one]
    rw [key, abs_mul, abs_of_pos hu]
    refine mul_le_mul_of_nonneg_right ?_ (le_of_lt hu)
    rw [abs_sub_comm]
    exact abs_sub_round _

/-- C4: in the L-curve post-processing, both norm sequences are first taken
through `np.log10` and rounded to exactly 6 significant figures, and only
those rounded logged sequences feed the first and second discrete
derivatives (hence the curvature); moreover significant-figure rounding is
precise to half a unit in the 6th significant place. -/
theorem calc_L_curve_log_round_order (res rgh : List ℝ) (x : ℝ) :
    lCurve_dydx res rgh =
      List.zipWith (· / ·)
        (np_gradient (round_to_sigfig (rgh.map (Real.logb 10)) 6))
        (np_gradient (round_to_sigfig (res.map (Real.logb 10)) 6)) ∧
    lCurve_d2 res rgh =
      List.zipWith (· / ·)
        (np_gradient (lCurve_dydx res rgh))
        (np_gradient (round_to_sigfig (res.map (Real.logb 10)) 6)) ∧
    round_to_sigfig (res.map (Real.logb 10)) 6 =
      (res.map (Real.logb 10)).map (sigfigRound 6) ∧
    |sigfigRound 6 x - x| ≤ (1 / 2) * (10:ℝ) ^ (⌊Real.logb 10 |x|⌋ - 5) := by
  refine ⟨rfl, rfl, rfl, ?_⟩
  have h := sigfigRound_precision 6 x
  have h5 : ((6:ℕ):ℤ) - 1 = 5 := by norm_num
  rw [h5] at h
  exact h

/-- Significant-figure rounding preserves array length. -/
theorem round_to_sigfig_length (xs : List ℝ) (n : ℕ) :
    (round_to_sigfig xs n).length = xs.length := by
  unfold round_to_sigfig
  rw [List.length_map]

/-- Logging and rounding preserves array length. -/
theorem lCurve_logvec_length (v : List ℝ) :
    (lCurve_logvec v).length = v.length := by
  unfold lCurve_logvec
  rw [round_to_sigfig_length, List.length_map]

/-- `derivatize` preserves the common length of its arguments (length
at least two, as in every valid sweep). -/
theorem derivatize_length (a b : List ℝ) (n : ℕ) (ha : a.length = n)
    (hb : b.length = n) (h2 : 2 ≤ n) : (derivatize a b).length = n := by
  unfold derivatize
  rw [List.length_zipWith, np_gradient_length a (by omega),
    np_gradient_length b (by omega), ha, hb, min_self]

/-- `dydx` has the sweep length. -/
theorem lCurve_dydx_length (res rgh : List ℝ) (n : ℕ) (hres : res.length = n)
    (hrgh : rgh.length = n) (h2 : 2 ≤ n) :
    (lCurve_dydx res rgh).length = n := by
  unfold lCurve_dydx
  exact derivatize_length _ _ n (by rw [lCurve_logvec_length, hrgh])
    (by rw [lCurve_logvec_length, hres]) h2

/-- `dy2d2x` has the sweep length. -/
theorem lCurve_d2_length (res rgh : List ℝ) (n : ℕ) (hres : res.length = n)
    (hrgh : rgh.length = n) (h2 : 2 ≤ n) :
    (lCurve_d2 res rgh).length = n := by
  unfold lCurve_d2
  exact derivatize_length _ _ n (lCurve_dydx_length res rgh n hres hrgh h2)
    (by rw [lCurve_logvec_length, hres]) h2

/-- The curvature array has the sweep length. -/
theorem lCurve_k_length (res rgh : List ℝ) (n : ℕ) (hres : res.length = n)
    (hrgh : rgh.length = n) (h2 : 2 ≤ n) :
    (lCurve_k res rgh).length = n := by
  unfold lCurve_k
  rw [List.length_zipWith, lCurve_d2_length res rgh n hres hrgh h2,
    lCurve_dydx_length res rgh n hres hrgh h2, min_self]

/-- C3: on a valid sweep, `calc_L_curve` computes the curvature
`κ = |d2y/dx2| / (1 + (dy/dx)^2)^1.5` at every sweep point and returns the
omega at the index selected by `np.argmax(k)`, which is the first index
attaining the maximum curvature: the selected curvature dominates every
sweep point, and strictly dominates every earlier one. -/
theorem calc_L_curve_corner_selection (res rgh om : List ℝ) (n : ℕ)
    (hres : res.length = n) (hrgh : rgh.length = n) (hom : om.length = n)
    (h2 : 2 ≤ n) :
    np_argmax (lCurve_k res rgh) < n ∧
    calc_L_curve_tail res rgh om =
      om.getD (np_argmax (lCurve_k res rgh)) 0 ∧
    (lCurve_k res rgh).length = n ∧
    (∀ j, j < n → (lCurve_k res rgh).getD j 0 =
      |(lCurve_d2 res rgh).getD j 0| /
        (1 + (lCurve_dydx res rgh).getD j 0 ^ 2) ^ (1.5:ℝ)) ∧
    (∀ j, j < n → (lCurve_k res rgh).getD j 0 ≤
      (lCurve_k res rgh).getD (np_argmax (lCurve_k res rgh)) 0) ∧
    (∀ j, j < np_argmax (lCurve_k res rgh) →
      (lCurve_k res rgh).getD j 0 <
        (lCurve_k res rgh).getD (np_argmax (lCurve_k res rgh)) 0) := by
  have hk : (lCurve_k res rgh).length = n := lCurve_k_length res rgh n hres hrgh h2
  have hkne : lCurve_k res rgh ≠ [] := by
    intro habs
    rw [habs] at hk
    simp at hk
    omega
  have hd2 : (lCurve_d2 res rgh).length = n := lCurve_d2_length res rgh n hres hrgh h2
  have hdy : (lCurve_dydx res rgh).length = n := lCurve_dydx_length res rgh n hres hrgh h2
  refine ⟨?_, rfl, hk, ?_, ?_, ?_⟩
  · have := np_argmax_lt_length _ hkne
    rw [hk] at this
    exact this
  · intro j hj
    unfold lCurve_k
    exact list_getD_zipWith (fun d2 d1 => |d2| / (1 + d1 ^ 2) ^ (1.5:ℝ))
      (lCurve_d2 res rgh) (lCurve_dydx res rgh) j
      (by rw [hd2]; exact hj) (by rw [hdy]; exact hj) 0 0 0
  · intro j hj
    exact np_argmax_is_max 0 _ j (by rw [hk]; exact hj)
  · intro j hj
    exact np_argmax_first 0 _ j hj

/-- Witness for C3 on a concrete length-3 sweep. -/
theorem calc_L_curve_corner_selection_witness :
    np_argmax (lCurve_k [0, 0, 0] [0, 0, 0]) < 3 ∧
      calc_L_curve_tail [0, 0, 0] [0, 0, 0] [1, 2, 3] =
        List.getD [1, 2, 3] (np_argmax (lCurve_k [0, 0, 0] [0, 0, 0])) 0 := by
  have h := calc_L_curve_corner_selection [0, 0, 0] [0, 0, 0] [1, 2, 3] 3
    rfl rfl rfl (by norm_num)
  exact ⟨h.1, h.2.1⟩

/-- The first inversion error aborts the whole sweep with that error. -/
theorem lCurve_sweep_error_propagates {ε : Type} (calcf : ℝ → Except ε (ℝ × ℝ)) :
    (om : List ℝ) → ∀ (i : ℕ) (e : ε), i < om.length →
      calcf (om.getD i 0) = .error e →
      (∀ j, j < i → ∃ p, calcf (om.getD j 0) = .ok p) →
      lCurve_sweep calcf om = .error e
  | [], i, e, hi, _, _ => absurd hi (by simp)
  | w :: rest, i, e, hi, herr, hok => by
    cases i with
    | zero =>
      simp only [List.getD_cons_zero] at herr
      simp [lCurve_sweep, herr]
    | succ i0 =>
      obtain ⟨p, hp⟩ := hok 0 (by omega)
      simp only [List.getD_cons_zero] at hp
      have hrest := lCurve_sweep_error_propagates calcf rest i0 e
        (by simpa using hi) (by simpa using herr)
        (fun j hj => by simpa using hok (j + 1) (by omega))
      simp [lCurve_sweep, hp, hrest]

/-- C7: an error raised by the regularized inversion at any sweep point —
all earlier points having succeeded — propagates out of `calc_L_curve` to
the caller unchanged: nothing is caught inside the loop, no point is
skipped, and no retry is attempted. -/
theorem calc_L_curve_error_propagation {ε : Type}
    (calcf : ℝ → Except ε (ℝ × ℝ)) (nOm : ℕ) (om_min om_max : ℝ)
    (i : ℕ) (e : ε) (hi : i < nOm)
    (herr : calcf ((lCurve_om_vec nOm om_min om_max).getD i 0) = .error e)
    (hok : ∀ j, j < i →
      ∃ p, calcf ((lCurve_om_vec nOm om_min om_max).getD j 0) = .ok p) :
    calc_L_curve_run calcf nOm om_min om_max = .error e := by
  have hs := lCurve_sweep_error_propagates calcf
    (lCurve_om_vec nOm om_min om_max) i e
    (by rw [lCurve_om_vec_length]; exact hi) herr hok
  unfold calc_L_curve_run
  rw [hs]

/-- A regularized inverter that fails at every omega, standing in for a
singular augmented system. -/
def lCurve_failing_inverter : ℝ → Except String (ℝ × ℝ) :=
  fun _ => .error "SingularSystemError"

/-- Witness for C7: with an inverter that fails at the first sweep point,
the whole `calc_L_curve` run surfaces that error. -/
theorem calc_L_curve_error_propagation_witness :
    calc_L_curve_run lCurve_failing_inverter 3 1 100 =
      .error "SingularSystemError" := by
  refine calc_L_curve_error_propagation lCurve_failing_inverter 3 1 100 0 _
    (by norm_num) rfl ?_
  intro j hj
  exact absurd hj (by omega)
